import Mathlib

/-!
Shallow embedding of the dlink WebSocketClient (src/index.js, src/switch.js,
src/index.d.ts) and proofs about it.

Conventions of the embedding:
* JavaScript strings are Lean `String`s; the byte view used by the crypto
  module (`hash.update(str)` with the default utf8 encoding) is `strBytes`,
  an explicit UTF-8 encoding of the code points.
* Machine arithmetic is `Nat` with explicit `% 2^32` where the SHA-1
  algorithm wraps.
* `undefined` is `Option.none`; JS truthiness of a string-or-undefined value
  is `jsTruthy` (both `undefined` and `""` are falsy).
* JSON serialization is abstracted: messages travel as structured values.
-/

namespace DlinkWS

/-- UTF-8 encoding of a single code point, as the list of its bytes. -/
def utf8Bytes (c : Nat) : List Nat :=
  if c < 0x80 then [c]
  else if c < 0x800 then [0xC0 + c / 64, 0x80 + c % 64]
  else if c < 0x10000 then [0xE0 + c / 4096, 0x80 + c / 64 % 64, 0x80 + c % 64]
  else [0xF0 + c / 262144, 0x80 + c / 4096 % 64, 0x80 + c / 64 % 64, 0x80 + c % 64]

/-- The UTF-8 bytes of a string (what `hash.update(s)` consumes in Node). -/
def strBytes (s : String) : List Nat :=
  (s.data.map (fun c => utf8Bytes c.toNat)).flatten

/-- JS truthiness for a string-valued field that may be `undefined`:
`undefined` and the empty string are falsy. -/
def jsTruthy : Option String → Bool
  | none => false
  | some s => s ≠ ""

/-! ## SHA-1 (the algorithm behind `crypto.createHash('sha1')`) -/

/-- 32-bit left rotation on `Nat`, result reduced mod `2^32`. -/
def rotl (n x : Nat) : Nat :=
  ((x % 4294967296) <<< n) % 4294967296 ||| (x % 4294967296) >>> (32 - n)

/-- SHA-1 running state: five 32-bit words. -/
structure Sha1H where
  a : Nat
  b : Nat
  c : Nat
  d : Nat
  e : Nat
deriving Repr, DecidableEq

def sha1Init : Sha1H := ⟨0x67452301, 0xEFCDAB89, 0x98BADCFE, 0x10325476, 0xC3D2E1F0⟩

/-- A 64-bit big-endian length field, as 8 bytes. -/
def bytes8BE (n : Nat) : List Nat :=
  [n >>> 56 % 256, n >>> 48 % 256, n >>> 40 % 256, n >>> 32 % 256,
   n >>> 24 % 256, n >>> 16 % 256, n >>> 8 % 256, n % 256]

/-- A 32-bit word as 4 big-endian bytes. -/
def bytes4BE (n : Nat) : List Nat :=
  [n >>> 24 % 256, n >>> 16 % 256, n >>> 8 % 256, n % 256]

/-- SHA-1 padding: append 0x80, zero bytes to 56 mod 64, then the bit length. -/
def sha1Pad (msg : List Nat) : List Nat :=
  msg ++ [128] ++ List.replicate ((119 - msg.length % 64) % 64) 0
      ++ bytes8BE (8 * msg.length)

/-- Split a byte list into 64-byte blocks (fuel-driven so it reduces in the
kernel; the fuel is the list length, which strictly dominates the number of
blocks). -/
def chunks64Go : Nat → List Nat → List (List Nat)
  | _, [] => []
  | 0, _ => []
  | n + 1, x :: xs => ((x :: xs).take 64) :: chunks64Go n ((x :: xs).drop 64)

/-- Split a byte list into 64-byte blocks. -/
def chunks64 (l : List Nat) : List (List Nat) :=
  chunks64Go l.length l

/-- Pack bytes (big-endian) into 32-bit words. -/
def packWords : List Nat → List Nat
  | b0 :: b1 :: b2 :: b3 :: rest =>
      (b0 <<< 24 ||| b1 <<< 16 ||| b2 <<< 8 ||| b3) :: packWords rest
  | _ => []

/-- Extend 16 words to the 80-word message schedule. -/
def sha1Schedule (w : Array Nat) : Array Nat :=
  Nat.fold (fun i w =>
    w.push (rotl 1 (w.getD (i + 13) 0 ^^^ w.getD (i + 8) 0 ^^^
                    w.getD (i + 2) 0 ^^^ w.getD i 0))) 64 w

/-- One SHA-1 round. -/
def sha1Round (w : Array Nat) (t : Nat) (h : Sha1H) : Sha1H :=
  let fk :=
    if t < 20 then ((h.b &&& h.c) ||| ((h.b ^^^ 4294967295) &&& h.d), 0x5A827999)
    else if t < 40 then (h.b ^^^ h.c ^^^ h.d, 0x6ED9EBA1)
    else if t < 60 then ((h.b &&& h.c) ||| (h.b &&& h.d) ||| (h.c &&& h.d), 0x8F1BBCDC)
    else (h.b ^^^ h.c ^^^ h.d, 0xCA62C1D6)
  let temp := (rotl 5 h.a + fk.1 + h.e + fk.2 + w.getD t 0) % 4294967296
  ⟨temp, h.a, rotl 30 h.b, h.c, h.d⟩

/-- Compress one 64-byte block into the running state. -/
def sha1Compress (h : Sha1H) (block : List Nat) : Sha1H :=
  let w := sha1Schedule (Array.mk (packWords block))
  let h' := Nat.fold (sha1Round w) 80 h
  ⟨(h.a + h'.a) % 4294967296, (h.b + h'.b) % 4294967296,
   (h.c + h'.c) % 4294967296, (h.d + h'.d) % 4294967296,
   (h.e + h'.e) % 4294967296⟩

/-- The SHA-1 digest of a byte list, as 20 bytes. -/
def sha1Bytes (msg : List Nat) : List Nat :=
  let h := (chunks64 (sha1Pad msg)).foldl sha1Compress sha1Init
  bytes4BE h.a ++ bytes4BE h.b ++ bytes4BE h.c ++ bytes4BE h.d ++ bytes4BE h.e

/-- Lower-case hex digit for a value below 16. -/
def hexDigit (n : Nat) : Char :=
  if n < 10 then Char.ofNat (48 + n) else Char.ofNat (87 + n)

/-- Lower-case hex encoding of a byte list (what `digest('hex')` yields). -/
def hexOfBytes (bs : List Nat) : String :=
  String.mk ((bs.map (fun b => [hexDigit (b / 16 % 16), hexDigit (b % 16)])).flatten)

/-! Model of a Node `crypto.createHash('sha1')` object: `update` accumulates
bytes, `digest('hex')` hashes everything accumulated so far. -/

/-- State of a Node incremental hash object: the bytes fed so far. -/
structure Sha1Ctx where
  buf : List Nat := []
deriving Repr, DecidableEq

/-- `crypto.createHash('sha1')`. -/
def createHashSha1 : Sha1Ctx := {}

/-- `shasum.update(s)` — appends the UTF-8 bytes of `s`. -/
def Sha1Ctx.update (h : Sha1Ctx) (s : String) : Sha1Ctx :=
  { buf := h.buf ++ strBytes s }

/-- `shasum.digest('hex')`. -/
def Sha1Ctx.digestHex (h : Sha1Ctx) : String :=
  hexOfBytes (sha1Bytes h.buf)

/-! ## The session record (`this._device`) and the client operations -/

/-- JS `opt.x || dflt` for a string option: `undefined` and `""` are falsy. -/
def jsOrStr (o : Option String) (dflt : String) : String :=
  match o with
  | none => dflt
  | some s => if s = "" then dflt else s

/-- JS `opt.x || dflt` for a numeric option: `undefined` and `0` are falsy. -/
def jsOrNat (o : Option Nat) (dflt : Nat) : Nat :=
  match o with
  | none => dflt
  | some n => if n = 0 then dflt else n

/-- Constructor options (src/index.js:367); `none` models an omitted field. -/
structure Options where
  ip : Option String := none
  pin : Option String := none
  model : Option String := none
  port : Option Nat := none
  keepAlive : Option Nat := none
  useTelnetForToken : Bool := false
deriving Repr, DecidableEq

/-- The `this._device` session record (src/index.js:369-385), together with
the abstracted socket condition `socketOpen` (`readyState === OPEN`). The
unused constructor field `deviceToken` is kept as in the source; the token
cache actually read and written by `_generateDeviceToken` is the distinct
field `token`, which the constructor never initializes (`undefined`, here
`none`). A salt stored as JS `undefined` is modelled as `""`: the two are
indistinguishable in this program (the salt is only consumed behind
truthiness guards). -/
structure Device where
  ip : String
  pin : String
  model : String
  port : Nat
  keepAlive : Nat
  deviceToken : String
  deviceId : String
  salt : String
  pingHandler : Bool
  sequence : Nat
  state : List Bool
  useTelnetForToken : Bool
  token : Option String
  connected : Bool
  socketOpen : Bool
  shortId : String
deriving Repr, DecidableEq

/-- `new WebSocketClient(opt)` (src/index.js:367-386). -/
def mkClient (opt : Options) : Device :=
  let model := jsOrStr opt.model ""
  { ip := jsOrStr opt.ip ""
    pin := jsOrStr opt.pin ""
    model := model
    port := jsOrNat opt.port 8080
    keepAlive := jsOrNat opt.keepAlive 30
    deviceToken := ""
    deviceId := ""
    salt := ""
    pingHandler := false
    sequence := 1000
    state := if model = "w245" then [false, false, false, false] else [false]
    useTelnetForToken := opt.useTelnetForToken
    token := none
    connected := false
    socketOpen := false
    shortId := "" }

/-- `_generateDeviceToken` (src/index.js:489-497): if no token is cached and
salt and deviceId are truthy, feed pin then salt to a fresh sha1 hash in two
separate updates, cache `deviceId ++ "-" ++ digestHex`; return the cache. -/
def generateDeviceToken (dev : Device) : Device × Option String :=
  if !jsTruthy dev.token && dev.salt ≠ "" && dev.deviceId ≠ "" then
    let shasum := createHashSha1
    let shasum := shasum.update dev.pin
    let shasum := shasum.update dev.salt
    let t := dev.deviceId ++ "-" ++ shasum.digestHex
    ({ dev with token := some t }, some t)
  else
    (dev, dev.token)

/-- One invocation of `_ping` (src/index.js:407-421): clear any scheduled
timer, transmit a keepalive ping frame if the socket is open, and
unconditionally reschedule. The transmitted frame
`JSON.stringify({command: 'keep_alive'})` is abstracted to its command
string. Returns the updated device and the transmissions performed. -/
def pingOnce (dev : Device) : Device × List String :=
  let sent := if dev.socketOpen then ["keep_alive"] else []
  ({ dev with pingHandler := true }, sent)

/-- The keepalive gate inside `connect` (src/index.js:463-465):
`_ping()` is started iff `this._device.keepAlive > 0`. -/
def connectStartsKeepAlive (dev : Device) : Bool :=
  dev.keepAlive > 0

/-- `disconnect` (src/index.js:472-481): close (and later terminate) the
socket, cancel the keepalive timer, clear the connected flag. Nothing else
is touched. -/
def disconnect (dev : Device) : Device :=
  { dev with socketOpen := false, pingHandler := false, connected := false }

/-- JS `s.substring(a, b)`: clamp both indices into `[0, length]`, swap if
out of order, then slice. -/
def jsSubstring (s : String) (a b : Int) : String :=
  let n : Int := s.length
  let clampIdx : Int → Nat := fun i => (min (max i 0) n).toNat
  let x := clampIdx a
  let y := clampIdx b
  String.mk ((s.data.drop (min x y)).take (max x y - min x y))

/-- Errors a call can surface: a thrown `API Error`, a runtime `TypeError`
from accessing a property of `undefined`, a socket-close rejection, or a
plain thrown `Error`. -/
inductive JsError where
  | apiError (code : Nat) (msg : String)
  | typeError (msg : String)
  | socketClosed (code : Nat) (reason : String)
  | jsError (msg : String)
deriving Repr, DecidableEq

/-- The `sign_in` response fields that `login` reads; `none` = absent. -/
structure SignInResp where
  salt : Option String := none
  device_id : Option String := none
deriving Repr, DecidableEq

/-- The tail of `login()` (src/index.js:725-731): store the reply's `salt`
and `device_id` verbatim, derive `shortId` via `substring(length - 4)`, set
the connected flag, resolve with `true`. No field of the reply is validated:
an absent `device_id` makes the `substring` call throw a TypeError (the
`salt`/`deviceId` assignments have already happened at that point); an
absent `salt` is simply stored. -/
def loginFinish (dev : Device) (m : SignInResp) : Except JsError Device :=
  let dev1 := { dev with salt := m.salt.getD "" }
  match m.device_id with
  | none => .error (.typeError "Cannot read properties of undefined (reading substring)")
  | some did =>
      .ok { dev1 with
              deviceId := did
              shortId := jsSubstring did ((did.length : Int) - 4) (did.length : Int)
              connected := true }

/-- One entry of a `setting` array (`metadata.value` is flattened in). -/
structure Setting where
  uid : Nat := 0
  value : Nat := 0
  idx : Nat := 0
  type : Nat := 16
deriving Repr, DecidableEq

/-- An outbound command before augmentation by `_buildJSON`. -/
structure Payload where
  command : String
  setting : List Setting := []
deriving Repr, DecidableEq

/-- An outbound command after augmentation by `_buildJSON`. `device` holds
`(device_id, device_token)` and is present iff the device id was known. -/
structure OutMsg where
  command : String
  setting : List Setting
  sequence_id : Nat
  local_cid : Nat
  timestamp : Nat
  client_id : String
  device : Option (String × Option String)
deriving Repr, DecidableEq

/-- `_buildJSON` (src/index.js:505-517): pre-increment the sequence counter
and stamp the payload with `sequence_id`, `local_cid = 41556`,
`timestamp = Math.round(Date.now() / 1000)` (`nowMs` is `Date.now()`),
`client_id = ''`, and, iff the device id is truthy, `device_id` plus the
token from `_generateDeviceToken` (which may update the token cache). -/
def buildJSON (dev : Device) (data : Payload) (nowMs : Nat) : Device × OutMsg :=
  let dev1 := { dev with sequence := dev.sequence + 1 }
  let base : OutMsg :=
    { command := data.command
      setting := data.setting
      sequence_id := dev1.sequence
      local_cid := 41556
      timestamp := (nowMs + 500) / 1000
      client_id := ""
      device := none }
  if dev1.deviceId ≠ "" then
    let r := generateDeviceToken dev1
    (r.1, { base with device := some (r.1.deviceId, r.2) })
  else
    (dev1, base)

/-- `_sendJson` (src/index.js:525-531): augment, transmit, and synchronously
return `this._device.sequence` (the id just assigned). Yields the updated
device, the transmitted message, and the returned sequence id. -/
def sendJson (dev : Device) (data : Payload) (nowMs : Nat) : Device × OutMsg × Nat :=
  let r := buildJSON dev data nowMs
  (r.1, r.2, r.1.sequence)

/-- A trace of `_sendJson` calls (payload and `Date.now()` per call),
returning the final device and the list of assigned sequence ids. -/
def sendMany (dev : Device) : List (Payload × Nat) → Device × List Nat
  | [] => (dev, [])
  | (p, t) :: rest =>
      let r := sendJson dev p t
      let r' := sendMany r.1 rest
      (r'.1, r.2.2 :: r'.2)

/-- Modelled from the spec: `setPin` is declared in src/index.d.ts:53 but its
implementation is not among the provided sources. Spec §4.3: "replaces the
stored PIN and invalidates the cached derived token; does not affect an
already-open socket or an in-progress handshake." -/
def setPin (dev : Device) (newPin : String) : Device :=
  { dev with pin := newPin, token := none }

/-- An inbound correlated response as `_getSetting`/`_setSetting` see it. -/
structure ApiResponse where
  code : Nat
  message : String := ""
  setting : List Setting := []
deriving Repr, DecidableEq

/-- The response handling of `_getSetting` (src/index.js:604-615): throw
`API Error ${code}: ${message}` for any non-zero `code`, otherwise return
the `setting` array. -/
def getSettingResult (message : ApiResponse) : Except JsError (List Setting) :=
  if message.code ≠ 0 then
    .error (.apiError message.code message.message)
  else
    .ok message.setting

/-- What `state()` resolves with: a single boolean or one per socket. -/
inductive StateAnswer where
  | single (b : Bool)
  | all (bs : List Bool)
deriving Repr, DecidableEq

/-- `state(socket)` (src/index.js:767-777) applied to the `get_setting`
response: for `socket >= 0` read `settings[socket].metadata.value === 1`
— the indexing is unchecked, so an out-of-range index yields `undefined`
and the `.metadata` access throws a TypeError; for negative `socket`
collect all values. -/
def stateQuery (socket : Int) (resp : ApiResponse) : Except JsError StateAnswer :=
  match getSettingResult resp with
  | .error e => .error e
  | .ok settings =>
      if socket ≥ 0 then
        match settings.get? socket.toNat with
        | none => .error (.typeError "Cannot read properties of undefined (reading metadata)")
        | some s => .ok (.single (s.value == 1))
      else
        .ok (.all (settings.map (fun s => s.value == 1)))

/-! ## Request/response correlation (`_sendJsonAsync`, src/index.js:539-569) -/

/-- An inbound message after `JSON.parse`, as the correlation logic sees it:
its `sequence_id` plus an abstract body. -/
structure InMsg where
  sequence_id : Nat
  body : String := ""
deriving Repr, DecidableEq

/-- Outcome of one `_sendJsonAsync` promise. -/
inductive CallStatus where
  | pending
  | resolvedWith (m : InMsg)
deriving Repr, DecidableEq

/-- One in-flight `_sendJsonAsync` call: the sequence id it awaits, whether
its listeners are still registered, and its promise status. -/
structure PendingCall where
  expected : Nat
  registered : Bool := true
  status : CallStatus := .pending
deriving Repr, DecidableEq

/-- The `handleMessage` listener of one call (src/index.js:542-552): an
unregistered listener is no longer invoked; a message with a different
`sequence_id` is debug-logged and otherwise ignored; a matching one removes
the call's listeners and resolves the promise with the parsed message. -/
def handleMessage (m : InMsg) (c : PendingCall) : PendingCall :=
  if !c.registered then c
  else if m.sequence_id ≠ c.expected then c
  else { c with registered := false, status := .resolvedWith m }

/-- Delivery of one inbound message to every listener the emitter holds. -/
def deliver (m : InMsg) (calls : List PendingCall) : List PendingCall :=
  calls.map (handleMessage m)

/-! ## Telnet scraping (src/index.js:633-665 and 698-710) -/

/-- Bytes the scraper writes to the telnet socket: command lines, or the
end-of-transmission byte `\x04` passed to `s.end`. -/
inductive TelnetOut where
  | write (s : String)
  | endEOT
deriving Repr, DecidableEq

/-- JS `String.prototype.toLowerCase` (ASCII suffices here). -/
def lowerStr (s : String) : String :=
  String.mk (s.data.map Char.toLower)

/-- Whether `pat` starts `text` (on character lists). -/
def charsStartWith : List Char → List Char → Bool
  | [], _ => true
  | _ :: _, [] => false
  | p :: ps, t :: ts => p == t && charsStartWith ps ts

/-- Whether `pat` occurs inside `text` (on character lists). -/
def charsContain (pat : List Char) : List Char → Bool
  | [] => charsStartWith pat []
  | c :: ts => charsStartWith pat (c :: ts) || charsContain pat ts

/-- JS `s.includes(pat)`. -/
def strIncludes (s pat : String) : Bool :=
  charsContain pat.data s.data

/-- The `data` handler of `_getFileContentsFromTelnet` (src/index.js:638-656)
on one received chunk: the four substring checks in source order — `login:`
(case-insensitive) writes the username, `password:` (case-insensitive)
writes the password, the search marker ends the session (EOT) and resolves
with the whole chunk, `#` writes `cat <file>`. Returns the writes performed
and the resolution, if any. -/
def telnetChunkStep (file searchStr chunk : String) : List TelnetOut × Option String :=
  let outs1 := if strIncludes (lowerStr chunk) "login:" then [TelnetOut.write "admin\n"] else []
  let outs2 := if strIncludes (lowerStr chunk) "password:" then [TelnetOut.write "123456\n"] else []
  let outs3 := if strIncludes chunk searchStr then [TelnetOut.endEOT] else []
  let res := if strIncludes chunk searchStr then some chunk else none
  let outs4 := if strIncludes chunk "#" then [TelnetOut.write ("cat " ++ file ++ "\n")] else []
  (outs1 ++ outs2 ++ outs3 ++ outs4, res)

/-- A whole scraping session over a list of received chunks: chunks are
processed in order until one resolves the promise (the socket was ended with
EOT at that point). Returns all writes and the resolved chunk, if any. -/
def telnetSession (file searchStr : String) : List String → List TelnetOut × Option String
  | [] => ([], none)
  | c :: cs =>
      let r := telnetChunkStep file searchStr c
      match r.2 with
      | some d => (r.1, some d)
      | none =>
          let r2 := telnetSession file searchStr cs
          (r.1 ++ r2.1, r2.2)

/-- JS `s.split(sep)` for a single-character separator (worker on
character lists, accumulating the current field reversed). -/
def splitCharsAux (sep : Char) : List Char → List Char → List String
  | [], acc => [String.mk acc.reverse]
  | c :: cs, acc =>
      if c == sep then String.mk acc.reverse :: splitCharsAux sep cs []
      else splitCharsAux sep cs (c :: acc)

/-- JS `s.split(sep)` for a single-character separator. -/
def splitOnChar (sep : Char) (s : String) : List String :=
  splitCharsAux sep s.data []

/-- The parsing loop of `getTokenFromTelnet` (src/index.js:700-708): split
the resolved chunk on `,`, split each pair on `:`, and for the first pair
whose key is `"DeviceToken"` return the value with first and last character
stripped (`value.substring(1, value.length - 1)`). (The corner where the
key matches but the pair has no `:` — a TypeError in JS — is unreachable
when the key matched, since matching requires the quote-delimited key to be
a proper split prefix; it is modelled as no match.) -/
def parseDeviceToken (d : String) : Option String :=
  (splitOnChar ',' d).findSome? fun pair =>
    match splitOnChar ':' pair with
    | key :: value :: _ =>
        if key = "\"DeviceToken\"" then
          some (jsSubstring value 1 ((value.length : Int) - 1))
        else
          none
    | _ => none

/-- `getTokenFromTelnet` (src/index.js:698-710) applied to the chunk the
telnet session resolved with: adopt the extracted value as the new PIN, or
throw `No token found.`. -/
def adoptTelnetToken (dev : Device) (chunk : String) : Except JsError Device :=
  match parseDeviceToken chunk with
  | some v => .ok { dev with pin := v }
  | none => .error (.jsError "No token found.")

instance {ε α : Type} [DecidableEq ε] [DecidableEq α] : DecidableEq (Except ε α)
  | .ok a, .ok b =>
      if h : a = b then .isTrue (by rw [h]) else .isFalse (by intro hc; cases hc; exact h rfl)
  | .error a, .error b =>
      if h : a = b then .isTrue (by rw [h]) else .isFalse (by intro hc; cases hc; exact h rfl)
  | .ok _, .error _ => .isFalse (by intro hc; cases hc)
  | .error _, .ok _ => .isFalse (by intro hc; cases hc)

/-! ## Shared helper lemmas -/

/-- `_generateDeviceToken` only ever writes the token cache: every other
session field is left unchanged. -/
theorem generateDeviceToken_frame (dev : Device) :
    (generateDeviceToken dev).1.salt = dev.salt ∧
    (generateDeviceToken dev).1.deviceId = dev.deviceId ∧
    (generateDeviceToken dev).1.sequence = dev.sequence ∧
    (generateDeviceToken dev).1.pin = dev.pin ∧
    (generateDeviceToken dev).1.connected = dev.connected := by
  unfold generateDeviceToken
  split <;> simp

/-- The token `_generateDeviceToken` yields does not depend on the sequence
counter. -/
theorem generateDeviceToken_ignores_sequence (dev : Device) (n : Nat) :
    (generateDeviceToken { dev with sequence := n }).2 = (generateDeviceToken dev).2 := by
  unfold generateDeviceToken
  simp only [jsTruthy]
  split <;> rename_i h <;> simp_all

/-- `_buildJSON` leaves salt and device id unchanged and increments the
sequence counter by exactly one. -/
theorem buildJSON_frame (dev : Device) (p : Payload) (t : Nat) :
    (buildJSON dev p t).1.salt = dev.salt ∧
    (buildJSON dev p t).1.deviceId = dev.deviceId ∧
    (buildJSON dev p t).1.sequence = dev.sequence + 1 := by
  have h := generateDeviceToken_frame { dev with sequence := dev.sequence + 1 }
  unfold buildJSON
  by_cases hd : dev.deviceId = "" <;> simp_all

/-- `_sendJson` increments the sequence counter by exactly one. -/
theorem sendJson_sequence (dev : Device) (p : Payload) (t : Nat) :
    (sendJson dev p t).1.sequence = dev.sequence + 1 := by
  unfold sendJson
  exact (buildJSON_frame dev p t).2.2

/-- `_sendJson` returns exactly the sequence id it assigned to the message. -/
theorem sendJson_ret (dev : Device) (p : Payload) (t : Nat) :
    (sendJson dev p t).2.2 = dev.sequence + 1 ∧
    (sendJson dev p t).2.1.sequence_id = dev.sequence + 1 := by
  constructor
  · show (buildJSON dev p t).1.sequence = dev.sequence + 1
    exact (buildJSON_frame dev p t).2.2
  · show (buildJSON dev p t).2.sequence_id = dev.sequence + 1
    unfold buildJSON
    by_cases hd : dev.deviceId = "" <;> simp [hd]

/-- The ids a trace of `_sendJson` calls assigns are the consecutive
integers starting right after the initial counter value; the counter ends
up advanced by the number of calls. -/
theorem sendMany_ids (dev : Device) (reqs : List (Payload × Nat)) :
    (sendMany dev reqs).2 = List.range' (dev.sequence + 1) reqs.length ∧
    (sendMany dev reqs).1.sequence = dev.sequence + reqs.length := by
  induction reqs generalizing dev with
  | nil => simp [sendMany]
  | cons pr rest ih =>
      obtain ⟨p, t⟩ := pr
      have hseq : (sendJson dev p t).1.sequence = dev.sequence + 1 :=
        sendJson_sequence dev p t
      have hret : (sendJson dev p t).2.2 = dev.sequence + 1 :=
        (sendJson_ret dev p t).1
      have h := ih (sendJson dev p t).1
      rw [hseq] at h
      constructor
      · show (sendJson dev p t).2.2 :: (sendMany (sendJson dev p t).1 rest).2 =
          List.range' (dev.sequence + 1) (rest.length + 1)
        rw [hret, h.1, List.range'_succ]
      · show (sendMany (sendJson dev p t).1 rest).1.sequence = dev.sequence + (rest.length + 1)
        rw [h.2]
        omega

/-! ## Claim theorems -/

/-- Claim C1, counterexample: a `get_setting` response with `code: 424`
surfaces to the caller of `state()` as `API Error 424`, not as code `403` —
no remapping exists in `_getSetting`. -/
theorem stateQuery_424_surfaces_424 :
    stateQuery 0 { code := 424, message := "forbidden", setting := [] } =
      .error (.apiError 424 "forbidden") ∧
    JsError.apiError 424 "forbidden" ≠ JsError.apiError 403 "forbidden" := by
  decide

/-- Claim C1, amended: for every `get_setting` response with a non-zero
code — 424 included — the error surfaced by `state()` preserves the
device's numeric code and message verbatim. -/
theorem apiError_code_preserved (resp : ApiResponse) (sock : Int) (h : resp.code ≠ 0) :
    getSettingResult resp = .error (.apiError resp.code resp.message) ∧
    stateQuery sock resp = .error (.apiError resp.code resp.message) := by
  have hg : getSettingResult resp = .error (.apiError resp.code resp.message) := by
    simp [getSettingResult, h]
  refine ⟨hg, ?_⟩
  unfold stateQuery
  rw [hg]

/-- Witness for `apiError_code_preserved` at the concrete code 424. -/
theorem apiError_code_preserved_witness :
    getSettingResult { code := 424, message := "m", setting := [] } =
      .error (.apiError 424 "m") ∧
    stateQuery 5 { code := 424, message := "m", setting := [] } =
      .error (.apiError 424 "m") :=
  apiError_code_preserved { code := 424, message := "m", setting := [] } 5 (by decide)

/-- Claim C2 (code bug): the constructor normalizes options with
`opt.keepAlive || 30`, so `keepAlive: 0` — documented as "0 to turn off" —
is stored as 30; `connect`'s gate `keepAlive > 0` then starts the keepalive
timer, and `_ping` transmits whenever the socket is open (and only then). -/
theorem keepAlive_zero_still_pings :
    (mkClient { pin := some "p", keepAlive := some 0 }).keepAlive = 30 ∧
    connectStartsKeepAlive (mkClient { pin := some "p", keepAlive := some 0 }) = true ∧
    (pingOnce { mkClient { pin := some "p", keepAlive := some 0 } with
        socketOpen := true }).2 = ["keep_alive"] ∧
    (pingOnce (mkClient { pin := some "p", keepAlive := some 0 })).2 = [] := by
  decide

/-- Claim C5: with two in-flight calls awaiting `S1 < S2`, an inbound
message tagged `S2` resolves only the `S2`-awaiting call (which also
unregisters its listeners) and leaves the `S1` call pending; and any
message whose `sequence_id` differs from a call's expected id leaves that
call completely unchanged. -/
theorem sendJsonAsync_correlation (S1 S2 : Nat) (h12 : S1 < S2) (m : InMsg)
    (hm : m.sequence_id = S2) :
    deliver m [⟨S1, true, .pending⟩, ⟨S2, true, .pending⟩] =
      [⟨S1, true, .pending⟩, ⟨S2, false, .resolvedWith m⟩] ∧
    (∀ (c : PendingCall) (m' : InMsg), m'.sequence_id ≠ c.expected →
      handleMessage m' c = c) := by
  constructor
  · simp [deliver, handleMessage, hm, h12.ne']
  · intro c m' h
    by_cases hr : c.registered <;> simp [handleMessage, hr, h]

/-- Witness for `sendJsonAsync_correlation` at ids 1001 < 1002. -/
theorem sendJsonAsync_correlation_witness :
    deliver ⟨1002, "resp"⟩ [⟨1001, true, .pending⟩, ⟨1002, true, .pending⟩] =
      [⟨1001, true, .pending⟩, ⟨1002, false, .resolvedWith ⟨1002, "resp"⟩⟩] :=
  (sendJsonAsync_correlation 1001 1002 (by decide) ⟨1002, "resp"⟩ rfl).1

/-- Claim C8, counterexample: `login` does not validate the `sign_in`
response. A reply missing only `salt` is accepted (the promise resolves,
with the salt left unset), and a reply missing `device_id` fails with a
runtime TypeError from the `substring` call — not with an authentication
error carrying the raw response. -/
theorem login_lax_validation_cex :
    (loginFinish (mkClient { pin := some "p" }) ⟨none, some "AABBCCDD"⟩).toOption.isSome
      = true ∧
    (loginFinish (mkClient { pin := some "p" }) ⟨none, some "AABBCCDD"⟩).toOption.map
      Device.salt = some "" ∧
    loginFinish (mkClient { pin := some "p" }) ⟨some "s", none⟩ =
      .error (.typeError "Cannot read properties of undefined (reading substring)") := by
  decide

/-- Claim C8, amended: `login` performs no validation of the `sign_in`
response: any reply that has a `device_id` succeeds — storing the reply's
salt verbatim (unset stays unset) and marking the session connected — and
any reply without `device_id` fails with a runtime TypeError raised by
`substring`, carrying no raw response. -/
theorem login_response_handling (dev : Device) (did : String) (s : Option String) :
    (loginFinish dev ⟨s, some did⟩).toOption.isSome = true ∧
    (∀ d', loginFinish dev ⟨s, some did⟩ = .ok d' →
      d'.salt = s.getD "" ∧ d'.deviceId = did ∧ d'.connected = true) ∧
    loginFinish dev ⟨s, none⟩ =
      .error (.typeError "Cannot read properties of undefined (reading substring)") := by
  refine ⟨rfl, ?_, rfl⟩
  intro d' h
  simp only [loginFinish, Except.ok.injEq] at h
  subst h
  exact ⟨rfl, rfl, rfl⟩

/-- Claim C9, counterexample: `disconnect` does not clear the salt or the
device identifier — it only closes the socket, cancels the keepalive timer
and clears the connected flag. -/
theorem disconnect_leaves_credentials_cex :
    (disconnect { mkClient { pin := some "p" } with
        salt := "s1", deviceId := "AABB", connected := true }).salt = "s1" ∧
    (disconnect { mkClient { pin := some "p" } with
        salt := "s1", deviceId := "AABB", connected := true }).deviceId = "AABB" ∧
    ("s1" : String) ≠ "" := by
  decide

/-- Claim C9, amended: the constructor initializes salt and device id
empty; each successful `login` sets them (to the handshake reply's values);
`disconnect` leaves both unchanged, clearing only the connected flag and
the keepalive timer; and no other operation of the client modifies them. -/
theorem credentials_frame (dev : Device) (o : Options) :
    ((mkClient o).salt = "" ∧ (mkClient o).deviceId = "") ∧
    ((disconnect dev).salt = dev.salt ∧ (disconnect dev).deviceId = dev.deviceId ∧
      (disconnect dev).connected = false ∧ (disconnect dev).pingHandler = false) ∧
    ((generateDeviceToken dev).1.salt = dev.salt ∧
      (generateDeviceToken dev).1.deviceId = dev.deviceId) ∧
    (∀ p t, (buildJSON dev p t).1.salt = dev.salt ∧
      (buildJSON dev p t).1.deviceId = dev.deviceId) ∧
    (∀ p t, (sendJson dev p t).1.salt = dev.salt ∧
      (sendJson dev p t).1.deviceId = dev.deviceId) ∧
    ((pingOnce dev).1.salt = dev.salt ∧ (pingOnce dev).1.deviceId = dev.deviceId) ∧
    (∀ p', (setPin dev p').salt = dev.salt ∧ (setPin dev p').deviceId = dev.deviceId) ∧
    (∀ chunk d', adoptTelnetToken dev chunk = .ok d' →
      d'.salt = dev.salt ∧ d'.deviceId = dev.deviceId) ∧
    (∀ m d', loginFinish dev m = .ok d' →
      d'.salt = m.salt.getD "" ∧ d'.deviceId = m.device_id.getD "") := by
  refine ⟨⟨rfl, rfl⟩, ⟨rfl, rfl, rfl, rfl⟩,
    ⟨(generateDeviceToken_frame dev).1, (generateDeviceToken_frame dev).2.1⟩,
    fun p t => ⟨(buildJSON_frame dev p t).1, (buildJSON_frame dev p t).2.1⟩,
    fun p t => ⟨(buildJSON_frame dev p t).1, (buildJSON_frame dev p t).2.1⟩,
    ⟨rfl, rfl⟩, fun p' => ⟨rfl, rfl⟩, ?_, ?_⟩
  · intro chunk d' h
    unfold adoptTelnetToken at h
    cases hp : parseDeviceToken chunk <;> rw [hp] at h
    · cases h
    · cases h
      exact ⟨rfl, rfl⟩
  · intro m d' h
    unfold loginFinish at h
    cases hm : m.device_id <;> rw [hm] at h
    · exact Except.noConfusion h
    · injection h with h'
      subst h'
      exact ⟨rfl, rfl⟩

/-- Claim C10: `state(i)` with `i >= 0` indexes the returned settings array
without a bounds check; whenever the array has length at most `i` the
lookup misses and the operation fails with a runtime TypeError (from
reading `.metadata` of `undefined`) — never with an API error or a socket
error. -/
theorem state_unchecked_index (resp : ApiResponse) (i : Int)
    (hc : resp.code = 0) (h0 : 0 ≤ i) (hlen : resp.setting.length ≤ i.toNat) :
    stateQuery i resp =
      .error (.typeError "Cannot read properties of undefined (reading metadata)") ∧
    (∀ c msg, stateQuery i resp ≠ .error (.apiError c msg)) ∧
    (∀ c r, stateQuery i resp ≠ .error (.socketClosed c r)) := by
  have hg : getSettingResult resp = .ok resp.setting := by
    simp [getSettingResult, hc]
  have hnone : resp.setting[i.toNat]? = none := by
    rw [List.getElem?_eq_none_iff]
    exact hlen
  have hq : stateQuery i resp =
      .error (.typeError "Cannot read properties of undefined (reading metadata)") := by
    unfold stateQuery
    rw [hg]
    simp [ge_iff_le, h0, hnone]
  refine ⟨hq, ?_, ?_⟩
  · intro c msg
    rw [hq]
    simp
  · intro c r
    rw [hq]
    simp

/-- Witness for `state_unchecked_index`: `state(2)` against a single-socket
response fails with the TypeError. -/
theorem state_unchecked_index_witness :
    stateQuery 2 { code := 0, message := "", setting := [{ value := 1 }] } =
      .error (.typeError "Cannot read properties of undefined (reading metadata)") :=
  (state_unchecked_index { code := 0, message := "", setting := [{ value := 1 }] } 2
    rfl (by decide) (by decide)).1

/-- Claim C6: every `_sendJson` call increments the session sequence
counter by exactly one and stamps the outbound message with that
pre-incremented value as `sequence_id`, with `local_cid = 41556`, a
unix-seconds timestamp (`Math.round(Date.now() / 1000)`), an empty
`client_id`, and — exactly when the device id is already known —
`device_id` plus the token obtained from the token generator on the
current credentials; the call returns the assigned sequence id
synchronously. Over any trace of sends the assigned ids are the
consecutive integers after the initial counter: strictly increasing, so no
id is ever reused. -/
theorem sendJson_spec (dev : Device) (data : Payload) (nowMs : Nat)
    (reqs : List (Payload × Nat)) :
    (sendJson dev data nowMs).1.sequence = dev.sequence + 1 ∧
    (sendJson dev data nowMs).2.2 = dev.sequence + 1 ∧
    (sendJson dev data nowMs).2.1.sequence_id = dev.sequence + 1 ∧
    (sendJson dev data nowMs).2.1.command = data.command ∧
    (sendJson dev data nowMs).2.1.setting = data.setting ∧
    (sendJson dev data nowMs).2.1.local_cid = 41556 ∧
    (sendJson dev data nowMs).2.1.timestamp = (nowMs + 500) / 1000 ∧
    (sendJson dev data nowMs).2.1.client_id = "" ∧
    (dev.deviceId ≠ "" →
      (sendJson dev data nowMs).2.1.device =
        some (dev.deviceId, (generateDeviceToken dev).2)) ∧
    (dev.deviceId = "" → (sendJson dev data nowMs).2.1.device = none) ∧
    (sendMany dev reqs).2 = List.range' (dev.sequence + 1) reqs.length ∧
    List.Pairwise (· < ·) (sendMany dev reqs).2 := by
  have hfr := generateDeviceToken_frame { dev with sequence := dev.sequence + 1 }
  have hig := generateDeviceToken_ignores_sequence dev (dev.sequence + 1)
  refine ⟨sendJson_sequence dev data nowMs, (sendJson_ret dev data nowMs).1,
    (sendJson_ret dev data nowMs).2, ?_, ?_, ?_, ?_, ?_, ?_, ?_,
    (sendMany_ids dev reqs).1, ?_⟩
  · show (buildJSON dev data nowMs).2.command = data.command
    unfold buildJSON
    by_cases hd : dev.deviceId = "" <;> simp [hd]
  · show (buildJSON dev data nowMs).2.setting = data.setting
    unfold buildJSON
    by_cases hd : dev.deviceId = "" <;> simp [hd]
  · show (buildJSON dev data nowMs).2.local_cid = 41556
    unfold buildJSON
    by_cases hd : dev.deviceId = "" <;> simp [hd]
  · show (buildJSON dev data nowMs).2.timestamp = (nowMs + 500) / 1000
    unfold buildJSON
    by_cases hd : dev.deviceId = "" <;> simp [hd]
  · show (buildJSON dev data nowMs).2.client_id = ""
    unfold buildJSON
    by_cases hd : dev.deviceId = "" <;> simp [hd]
  · intro hd
    show (buildJSON dev data nowMs).2.device =
      some (dev.deviceId, (generateDeviceToken dev).2)
    unfold buildJSON
    simp only [hd, if_pos, ne_eq, not_false_iff, if_true]
    simp [hd, hfr.2.1, hig]
  · intro hd
    show (buildJSON dev data nowMs).2.device = none
    unfold buildJSON
    simp [hd]
  · rw [(sendMany_ids dev reqs).1]
    exact List.pairwise_lt_range' _ _

/-- Claim C7: on the chunk sequence `"login: "`, `"Password: "`, `"# "`,
`"\"DeviceToken\":\"abc123\",\"Other\":1"`, the telnet scraper writes
exactly `admin\n`, then `123456\n`, then
`cat /mydlink/config/device.cfg\n`, then ends the session with the
end-of-transmission byte, and `getTokenFromTelnet` adopts `abc123`
(quotes stripped) as the new PIN. -/
theorem telnet_scenario :
    telnetSession "/mydlink/config/device.cfg" "DeviceToken"
        ["login: ", "Password: ", "# ", "\"DeviceToken\":\"abc123\",\"Other\":1"] =
      ([TelnetOut.write "admin\n", TelnetOut.write "123456\n",
        TelnetOut.write "cat /mydlink/config/device.cfg\n", TelnetOut.endEOT],
       some "\"DeviceToken\":\"abc123\",\"Other\":1") ∧
    parseDeviceToken "\"DeviceToken\":\"abc123\",\"Other\":1" = some "abc123" ∧
    adoptTelnetToken (mkClient { pin := some "old" })
        "\"DeviceToken\":\"abc123\",\"Other\":1" =
      .ok { mkClient { pin := some "old" } with pin := "abc123" } := by
  decide

/-- Claim C4: with no cached token, if both salt and device id are known
the derived token is the device id, a literal `-`, and the hex SHA-1
digest of the bytes of pin followed by the bytes of salt (the two separate
`update` calls amount to hashing the concatenation, in that order); if
salt or device id is not yet known, the result is `undefined`. -/
theorem generateDeviceToken_derivation (dev : Device) (htok : dev.token = none) :
    (dev.salt ≠ "" → dev.deviceId ≠ "" →
      (generateDeviceToken dev).2 =
        some (dev.deviceId ++ "-" ++
          hexOfBytes (sha1Bytes (strBytes dev.pin ++ strBytes dev.salt)))) ∧
    ((dev.salt = "" ∨ dev.deviceId = "") → (generateDeviceToken dev).2 = none) := by
  constructor
  · intro hs hd
    simp [generateDeviceToken, jsTruthy, htok, hs, hd, createHashSha1,
      Sha1Ctx.update, Sha1Ctx.digestHex]
  · intro h
    rcases h with h | h <;> simp [generateDeviceToken, jsTruthy, htok, h]

/-- Witness for `generateDeviceToken_derivation` on concrete credentials. -/
theorem generateDeviceToken_derivation_witness :
    (generateDeviceToken
        { mkClient { pin := some "1234" } with salt := "saltX", deviceId := "AABB" }).2 =
      some ("AABB" ++ "-" ++
        hexOfBytes (sha1Bytes (strBytes "1234" ++ strBytes "saltX"))) :=
  (generateDeviceToken_derivation
      { mkClient { pin := some "1234" } with salt := "saltX", deviceId := "AABB" } rfl).1
    (by decide) (by decide)

set_option maxRecDepth 40000 in
/-- Claim C3, counterexample: after a handshake with salt `s1` caches a
token, a second handshake changes the salt to `s2`, yet the next
`_generateDeviceToken` call still returns the cached `s1`-token — which
differs from what a recomputation over the current salt would yield — so
the token is not recomputed when the salt changes. -/
theorem token_stale_after_salt_change_cex :
    ((do
        let d1 ← loginFinish (mkClient { pin := some "1234" }) ⟨some "s1", some "DEV"⟩
        let d2 := (generateDeviceToken d1).1
        let d3 ← loginFinish d2 ⟨some "s2", some "DEV"⟩
        pure ((generateDeviceToken d3).2, d3.salt)) :
      Except JsError (Option String × String)) =
      .ok (some ("DEV-" ++ hexOfBytes (sha1Bytes (strBytes "1234" ++ strBytes "s1"))),
           "s2") ∧
    hexOfBytes (sha1Bytes (strBytes "1234" ++ strBytes "s1")) ≠
      hexOfBytes (sha1Bytes (strBytes "1234" ++ strBytes "s2")) := by
  decide

/-- Claim C3, amended: the token is recomputed iff no value is cached (the
cache is not invalidated when pin or salt changes by themselves); the
spec-modelled `setPin` replaces the PIN and clears the cache, so the next
derivation is recomputed from the new PIN and the current salt — and
differs from any cached token whose value differs from that fresh
derivation. -/
theorem token_cache_and_setPin (dev : Device) (p' : String)
    (hs : dev.salt ≠ "") (hd : dev.deviceId ≠ "") :
    (jsTruthy dev.token = true → generateDeviceToken dev = (dev, dev.token)) ∧
    (dev.token = none →
      (generateDeviceToken dev).2 =
        some (dev.deviceId ++ "-" ++
          hexOfBytes (sha1Bytes (strBytes dev.pin ++ strBytes dev.salt)))) ∧
    (setPin dev p').pin = p' ∧
    (setPin dev p').token = none ∧
    (generateDeviceToken (setPin dev p')).2 =
      some (dev.deviceId ++ "-" ++
        hexOfBytes (sha1Bytes (strBytes p' ++ strBytes dev.salt))) ∧
    (∀ t, dev.token = some t →
      t ≠ dev.deviceId ++ "-" ++
        hexOfBytes (sha1Bytes (strBytes p' ++ strBytes dev.salt)) →
      (generateDeviceToken (setPin dev p')).2 ≠ dev.token) := by
  have hfresh : (generateDeviceToken (setPin dev p')).2 =
      some (dev.deviceId ++ "-" ++
        hexOfBytes (sha1Bytes (strBytes p' ++ strBytes dev.salt))) := by
    simp [setPin, generateDeviceToken, jsTruthy, hs, hd, createHashSha1,
      Sha1Ctx.update, Sha1Ctx.digestHex]
  refine ⟨?_, ?_, rfl, rfl, hfresh, ?_⟩
  · intro h
    simp [generateDeviceToken, h]
  · intro h
    simp [generateDeviceToken, jsTruthy, h, hs, hd, createHashSha1,
      Sha1Ctx.update, Sha1Ctx.digestHex]
  · intro t ht hne
    rw [hfresh, ht]
    intro hc
    injection hc with hc'
    exact hne hc'.symm

/-- Witness for `token_cache_and_setPin` on concrete credentials. -/
theorem token_cache_and_setPin_witness :
    (setPin { mkClient { pin := some "1234" } with salt := "s", deviceId := "DEV" }
        "9999").pin = "9999" :=
  (token_cache_and_setPin
      { mkClient { pin := some "1234" } with salt := "s", deviceId := "DEV" } "9999"
      (by decide) (by decide)).2.2.1

end DlinkWS
